import Mathlib

/-!
Verification of the movie rating backend (Express + Sequelize controllers).

The definitions below are a shallow embedding of the repository code:

* `src/controllers/movieController.js` : getMovies, rateMovie,
  getTopRatedMovies, getRecommendations
* reviewController (src/unnamed/part_003) : createReview, updateReview
* statsController (src/unnamed/part_003) : getRatingDistribution
* userController (src/unnamed/part_003) : updateProfile, deleteAccount
* `src/middleware/auth.js` : auth
* Sequelize models (src/models, src/unnamed/part_002)

The relational database is modelled as lists of rows; SQL aggregate
queries are modelled as list computations; JavaScript numbers carrying
ratings are modelled as rationals.  Fields that arrive in a request body
and may be absent (JavaScript `undefined`) are modelled as `Option`.
-/

/-- A row of the `ratings` table (model Rating, src/unnamed/part_002):
`(user_id, movie_id)` is declared unique, `rating` is DECIMAL(2,1). -/
structure RatingRow where
  user_id : Nat
  movie_id : Nat
  rating : ℚ
deriving DecidableEq, Repr

/-- A row of the `movies` table (model Movie, src/models/Movie.js),
restricted to the columns the verified operations read. -/
structure MovieRow where
  movie_id : Nat
  title : String
  release_date : Option String
  overview : String
deriving DecidableEq, Repr

/-- A row of the `genres` table. -/
structure GenreRow where
  genre_id : Nat
  name : String
deriving DecidableEq, Repr

/-- A row of the `movie_genres` join table. -/
structure MovieGenreRow where
  movie_id : Nat
  genre_id : Nat
deriving DecidableEq, Repr

/-- A row of the `reviews` table (model Review, src/unnamed/part_002). -/
structure ReviewRow where
  review_id : Nat
  user_id : Nat
  movie_id : Nat
  title : String
  content : String
  is_spoiler : Bool
deriving DecidableEq, Repr

/-- A row of the `users` table (model User, src/models/User.js),
restricted to the columns the verified operations read. -/
structure UserRow where
  user_id : Nat
  first_name : String
  last_name : String
  bio : String
  is_active : Bool
deriving DecidableEq, Repr

/-- A row of the `user_activity` table, written by the raw INSERT in
rateMovie. -/
structure ActivityRow where
  user_id : Nat
  movie_id : Nat
  activity_type : String
deriving DecidableEq, Repr

/-- The database state: one list of rows per table. -/
structure Db where
  movies : List MovieRow
  genres : List GenreRow
  movie_genres : List MovieGenreRow
  ratings : List RatingRow
  reviews : List ReviewRow
  users : List UserRow
  user_activity : List ActivityRow
deriving DecidableEq, Repr

/-- The `(status, message)` pair of a JSON response envelope. -/
structure ApiResp where
  status : Nat
  message : String
deriving DecidableEq, Repr

/-- JavaScript `parseInt(x) || d` : an absent, unparsable or zero value
falls back to the default. -/
def jsIntOr (o : Option Nat) (d : Nat) : Nat :=
  match o with
  | some n => if n = 0 then d else n
  | none => d

/-- JavaScript `x || d` for a string `x` that may be `undefined`:
the default is used when the value is absent or the empty string
(the empty string is falsy). -/
def jsOrString (o : Option String) (d : String) : String :=
  match o with
  | some s => if s = "" then d else s
  | none => d

/-- Update the first element satisfying `p` by `f`, keep the rest:
the effect of a Sequelize `instance.update` on the row returned by a
`findOne` / `findByPk`. -/
def updateFirst (p : α → Bool) (f : α → α) : List α → List α
  | [] => []
  | x :: xs => if p x then f x :: xs else x :: updateFirst p f xs

theorem length_updateFirst (p : α → Bool) (f : α → α) (l : List α) :
    (updateFirst p f l).length = l.length := by
  induction l with
  | nil => rfl
  | cons x xs ih =>
    by_cases h : p x <;> simp [updateFirst, h, ih]

theorem find?_updateFirst (p : α → Bool) (f : α → α) (l : List α) (x : α)
    (hf : ∀ a, p (f a) = p a) (hx : l.find? p = some x) :
    (updateFirst p f l).find? p = some (f x) := by
  induction l with
  | nil => simp at hx
  | cons a t ih =>
    by_cases h : p a
    · rw [List.find?_cons_of_pos _ h] at hx
      cases hx
      simp [updateFirst, h, List.find?_cons_of_pos, hf]
    · rw [List.find?_cons_of_neg _ h] at hx
      simp [updateFirst, h, List.find?_cons_of_neg, ih hx]

theorem length_filter_updateFirst (p q : α → Bool) (f : α → α) (l : List α)
    (hf : ∀ a, q (f a) = q a) :
    ((updateFirst p f l).filter q).length = (l.filter q).length := by
  induction l with
  | nil => rfl
  | cons a t ih =>
    by_cases h : p a
    · simp only [updateFirst, h, if_pos]
      by_cases hq : q a <;> simp [List.filter_cons, hf, hq]
    · simp only [updateFirst, h, if_neg, not_false_iff]
      by_cases hq : q a <;> simp [List.filter_cons, hq, ih]

/-- All rating values stored for one movie
(`SELECT rating FROM ratings WHERE ratings.movie_id = <mid>`). -/
def ratingsOf (db : Db) (mid : Nat) : List ℚ :=
  (db.ratings.filter (fun r => r.movie_id == mid)).map (fun r => r.rating)

/-- SQL `COALESCE(AVG(rating), 0)` over a list of values: the mean,
or 0 when the list is empty (AVG of no rows is NULL). -/
def listAvg (l : List ℚ) : ℚ :=
  if l.length = 0 then 0 else l.sum / l.length

/-- The correlated subquery `SELECT COALESCE(AVG(rating), 0) FROM ratings
WHERE ratings.movie_id = Movie.movie_id`. -/
def movieAvgRating (db : Db) (mid : Nat) : ℚ :=
  listAvg (ratingsOf db mid)

/-- The correlated subquery `SELECT COUNT(*) FROM ratings WHERE
ratings.movie_id = Movie.movie_id`. -/
def movieRatingCount (db : Db) (mid : Nat) : Nat :=
  (ratingsOf db mid).length

/-- `Movie.findByPk(id)`. -/
def findMovie (db : Db) (mid : Nat) : Option MovieRow :=
  db.movies.find? (fun m => m.movie_id == mid)

/-- `Rating.findOne({ where: { user_id, movie_id } })`. -/
def findRating (db : Db) (uid mid : Nat) : Option RatingRow :=
  db.ratings.find? (fun r => r.user_id == uid && r.movie_id == mid)

/-- `Review.findOne({ where: { user_id, movie_id } })`. -/
def findReview (db : Db) (uid mid : Nat) : Option ReviewRow :=
  db.reviews.find? (fun r => r.user_id == uid && r.movie_id == mid)

/-- `User.findByPk(id)`. -/
def findUser (db : Db) (uid : Nat) : Option UserRow :=
  db.users.find? (fun u => u.user_id == uid)

/-- The validation guard of rateMovie
(movieController.js line 232): `rating < 0 || rating > 10`.
A JavaScript comparison against `undefined` is false, so an absent
rating never triggers the guard. -/
def ratingOutOfRange (rating? : Option ℚ) : Bool :=
  match rating? with
  | some r => decide (r < 0) || decide (r > 10)
  | none => false

/-- The write path of rateMovie (movieController.js lines 248-276),
reached after validation and the movie lookup: update the existing
`(user, movie)` rating row or insert a fresh one, then append a `rate`
row to `user_activity`.  With an absent rating value the insert is
rejected by the Rating model validation (`allowNull: false`,
src/unnamed/part_002) and the controller catch-all answers 500; an
update with an undefined value leaves the row unchanged. -/
def rateWrite (db : Db) (uid mid : Nat) (rating? : Option ℚ) : ApiResp × Db :=
  match findRating db uid mid, rating? with
  | some _, some r =>
      (⟨200, "Rating submitted successfully"⟩,
        { db with
          ratings := updateFirst
            (fun rr => rr.user_id == uid && rr.movie_id == mid)
            (fun rr => { rr with rating := r }) db.ratings
          user_activity := db.user_activity ++ [⟨uid, mid, "rate"⟩] })
  | some _, none =>
      (⟨200, "Rating submitted successfully"⟩,
        { db with user_activity := db.user_activity ++ [⟨uid, mid, "rate"⟩] })
  | none, some r =>
      (⟨200, "Rating submitted successfully"⟩,
        { db with
          ratings := db.ratings ++ [⟨uid, mid, r⟩]
          user_activity := db.user_activity ++ [⟨uid, mid, "rate"⟩] })
  | none, none => (⟨500, "Server error"⟩, db)

/-- rateMovie (movieController.js lines 226-292): validate the rating,
look the movie up, then run the write path. -/
def rateMovie (db : Db) (uid mid : Nat) (rating? : Option ℚ) : ApiResp × Db :=
  if ratingOutOfRange rating? then
    (⟨400, "Rating must be between 0 and 10"⟩, db)
  else
    match findMovie db mid with
    | none => (⟨404, "Movie not found"⟩, db)
    | some _ => rateWrite db uid mid rating?

/-- The next auto-increment value for `reviews.review_id`. -/
def nextReviewId (db : Db) : Nat :=
  (db.reviews.map (fun r => r.review_id)).foldr max 0 + 1

/-- createReview (reviewController, src/unnamed/part_003 lines 7-72):
404 when the movie is missing, 400 when the pair already has a review,
otherwise insert the new row.  `is_spoiler: is_spoiler || false` maps an
absent flag to `false`. -/
def createReview (db : Db) (uid mid : Nat) (title content : String)
    (spoiler? : Option Bool) : ApiResp × Db :=
  match findMovie db mid with
  | none => (⟨404, "Movie not found"⟩, db)
  | some _ =>
    match findReview db uid mid with
    | some _ => (⟨400, "You have already reviewed this movie"⟩, db)
    | none =>
        (⟨201, "Review created successfully"⟩,
          { db with reviews := db.reviews ++
              [⟨nextReviewId db, uid, mid, title, content, spoiler?.getD false⟩] })

/-- The update payload of updateReview (src/unnamed/part_003
lines 100-104): `title: title || review.title`,
`content: content || review.content`,
`is_spoiler: is_spoiler !== undefined ? is_spoiler : review.is_spoiler`. -/
def applyReviewUpdate (rv : ReviewRow) (title? content? : Option String)
    (spoiler? : Option Bool) : ReviewRow :=
  { rv with
    title := jsOrString title? rv.title
    content := jsOrString content? rv.content
    is_spoiler := match spoiler? with
      | some s => s
      | none => rv.is_spoiler }

/-- updateReview (src/unnamed/part_003 lines 77-134): look the review up
by primary key, check ownership, then update the found row in place. -/
def updateReview (db : Db) (uid rid : Nat) (title? content? : Option String)
    (spoiler? : Option Bool) : ApiResp × Db :=
  match db.reviews.find? (fun r => r.review_id == rid) with
  | none => (⟨404, "Review not found"⟩, db)
  | some rv =>
    if rv.user_id != uid then
      (⟨403, "Not authorized to update this review"⟩, db)
    else
      (⟨200, "Review updated successfully"⟩,
        { db with reviews := (updateFirst (fun r => r.review_id == rid)
            (fun r => applyReviewUpdate r title? content? spoiler?) db.reviews) })

/-- The update payload of updateProfile (src/unnamed/part_003
lines 683-687): `first_name: first_name || user.first_name`, and the
same for `last_name` and `bio`. -/
def applyProfileUpdate (u : UserRow) (fn? ln? bio? : Option String) : UserRow :=
  { u with
    first_name := jsOrString fn? u.first_name
    last_name := jsOrString ln? u.last_name
    bio := jsOrString bio? u.bio }

/-- updateProfile (src/unnamed/part_003 lines 669-711). -/
def updateProfile (db : Db) (uid : Nat) (fn? ln? bio? : Option String) :
    ApiResp × Db :=
  match findUser db uid with
  | none => (⟨404, "User not found"⟩, db)
  | some _ =>
      (⟨200, "Profile updated successfully"⟩,
        { db with users := (updateFirst (fun u => u.user_id == uid)
            (fun u => applyProfileUpdate u fn? ln? bio?) db.users) })

/-- deleteAccount (src/unnamed/part_003 lines 871-896): soft delete,
the row stays and only `is_active` flips to false. -/
def deleteAccount (db : Db) (uid : Nat) : ApiResp × Db :=
  match findUser db uid with
  | none => (⟨404, "User not found"⟩, db)
  | some _ =>
      (⟨200, "Account deleted successfully"⟩,
        { db with users := (updateFirst (fun u => u.user_id == uid)
            (fun u => { u with is_active := false }) db.users) })

/-- The user-resolution part of the auth middleware
(src/middleware/auth.js lines 22-41), after the external JWT library has
verified the bearer token and produced the decoded user id: load the
user, reject a missing user and a deactivated account with 401. -/
def authCheck (db : Db) (decodedId : Nat) : Except ApiResp UserRow :=
  match findUser db decodedId with
  | none => .error ⟨401, "Not authorized, user not found"⟩
  | some u =>
    if u.is_active = false then .error ⟨401, "Account is deactivated"⟩
    else .ok u

/-- A movie row annotated with the two derived aggregate columns. -/
structure AnnotatedMovie where
  movie : MovieRow
  avgRating : ℚ
  ratingCount : Nat
deriving DecidableEq, Repr

/-- Attach the correlated aggregate columns to a movie row. -/
def annotate (db : Db) (m : MovieRow) : AnnotatedMovie :=
  ⟨m, movieAvgRating db m.movie_id, movieRatingCount db m.movie_id⟩

/-- Stable sort by a boolean comparator, modelling SQL ORDER BY. -/
def sortBy (cmp : α → α → Bool) (l : List α) : List α :=
  List.insertionSort (fun a b => cmp a b = true) l

theorem mem_sortBy {cmp : α → α → Bool} {l : List α} {a : α} :
    a ∈ sortBy cmp l ↔ a ∈ l :=
  (List.perm_insertionSort (fun a b => cmp a b = true) l).mem_iff

theorem sortBy_nil (cmp : α → α → Bool) : sortBy cmp [] = [] := rfl

/-- SQL `LIKE CONCAT(ident, needle, ident)` over already-lowercased
strings: does `needle` occur as a substring of `hay`?  A nonempty
occurrence splits the haystack into at least two parts. -/
def isSubstr (needle hay : String) : Bool :=
  if needle = "" then true else decide ((hay.splitOn needle).length ≥ 2)

/-- Request parameters of getMovies after Express query parsing; absent
parameters are `none`. -/
structure MoviesQuery where
  page? : Option Nat := none
  limit? : Option Nat := none
  sort? : Option String := none
  genre? : Option String := none
  year? : Option Nat := none
  search? : Option String := none
  minRating? : Option ℚ := none
deriving Repr

/-- The WHERE clause of getMovies (movieController.js lines 21-33):
optional case-insensitive title substring, optional release-date range
for a year (a NULL date never matches BETWEEN). -/
def movieWhere (q : MoviesQuery) (m : MovieRow) : Bool :=
  (match q.search? with
   | none => true
   | some s => isSubstr s.toLower m.title.toLower) &&
  (match q.year? with
   | none => true
   | some y =>
     match m.release_date with
     | none => false
     | some d =>
         decide (toString y ++ "-01-01" ≤ d) && decide (d ≤ toString y ++ "-12-31"))

/-- The genre include filter of getMovies (movieController.js
lines 61-70): when a genre parameter is present the include becomes an
inner join on genres whose name contains the parameter. -/
def movieGenreFilter (db : Db) (q : MoviesQuery) (m : MovieRow) : Bool :=
  match q.genre? with
  | none => true
  | some g =>
      db.movie_genres.any (fun mg =>
        mg.movie_id == m.movie_id &&
        db.genres.any (fun gr =>
          gr.genre_id == mg.genre_id && isSubstr g.toLower gr.name.toLower))

/-- The ORDER BY comparator selected by the sort switch
(movieController.js lines 36-58); the default case is title ascending.
NULL dates sort first on an ascending date sort. -/
def movieCmp (sort : String) (a b : AnnotatedMovie) : Bool :=
  match sort with
  | "title-asc" => decide (a.movie.title ≤ b.movie.title)
  | "title-desc" => decide (b.movie.title ≤ a.movie.title)
  | "year-asc" => dateLe a.movie.release_date b.movie.release_date
  | "year-desc" => dateLe b.movie.release_date a.movie.release_date
  | "rating-asc" => decide (a.avgRating ≤ b.avgRating)
  | "rating-desc" => decide (b.avgRating ≤ a.avgRating)
  | _ => decide (a.movie.title ≤ b.movie.title)
where
  dateLe : Option String → Option String → Bool
    | none, _ => true
    | some _, none => false
    | some x, some y => decide (x ≤ y)

/-- The paginated JSON envelope of getMovies. -/
structure MoviesResult where
  movies : List AnnotatedMovie
  page : Nat
  limit : Nat
  total : Nat
  pages : Nat
deriving Repr

/-- `Math.ceil(total / limit)` on nonnegative integer inputs. -/
def jsCeilDiv (total limit : Nat) : Nat :=
  Nat.ceil ((total : ℚ) / (limit : ℚ))

/-- The movies matching the WHERE clause and the genre include of
getMovies (the `findAndCountAll` row set before pagination). -/
def moviesMatching (db : Db) (q : MoviesQuery) : List MovieRow :=
  db.movies.filter (fun m => movieWhere q m && movieGenreFilter db q m)

/-- The fetched page of getMovies: annotated matches, sorted by the
selected comparator, then offset/limit applied
(`offset = (page - 1) * limit`). -/
def moviesPage (db : Db) (q : MoviesQuery) : List AnnotatedMovie :=
  let page := jsIntOr q.page? 1
  let limit := jsIntOr q.limit? 8
  ((sortBy (movieCmp (jsOrString q.sort? "title-asc"))
    ((moviesMatching db q).map (annotate db))).drop ((page - 1) * limit)).take limit

/-- The in-memory minRating re-scan of the fetched page
(movieController.js lines 102-109). -/
def moviesMinFiltered (db : Db) (q : MoviesQuery) : List AnnotatedMovie :=
  match q.minRating? with
  | none => moviesPage db q
  | some x => (moviesPage db q).filter (fun am => decide (x ≤ am.avgRating))

/-- The `total` reported by getMovies (movieController.js line 118):
the filtered-page length when minRating is given, the full match count
otherwise. -/
def moviesTotal (db : Db) (q : MoviesQuery) : Nat :=
  match q.minRating? with
  | none => (moviesMatching db q).length
  | some _ => (moviesMinFiltered db q).length

/-- getMovies (movieController.js lines 8-130): filter, sort, paginate
off the storage layer, annotate with the correlated aggregates, then
re-filter the fetched page in memory when a minRating is given. -/
def getMovies (db : Db) (q : MoviesQuery) : MoviesResult :=
  ⟨moviesMinFiltered db q, jsIntOr q.page? 1, jsIntOr q.limit? 8,
    moviesTotal db q, jsCeilDiv (moviesTotal db q) (jsIntOr q.limit? 8)⟩

/-- The comparator `ORDER BY avgRating DESC, ratingCount DESC`. -/
def ratingDescCmp (a b : AnnotatedMovie) : Bool :=
  decide (b.avgRating < a.avgRating) ||
    (decide (a.avgRating = b.avgRating) && decide (b.ratingCount ≤ a.ratingCount))

/-- getTopRatedMovies (movieController.js lines 297-332): movies with at
least one rating, annotated by the LEFT JOIN aggregates, ordered by
average rating then rating count descending, first `limit` rows
(`parseInt(req.query.limit) || 10`). -/
def getTopRatedMovies (db : Db) (limit? : Option Nat) : List AnnotatedMovie :=
  let limit := jsIntOr limit? 10
  let rows := db.movies.filter (fun m => decide (1 ≤ movieRatingCount db m.movie_id))
  (sortBy ratingDescCmp (rows.map (annotate db))).take limit

/-- The first query of getRecommendations (movieController.js
lines 500-509): the requesting users ratings of value at least 4,
ordered by rating descending, first ten rows. -/
def highlyRated (db : Db) (uid : Nat) : List RatingRow :=
  (sortBy (fun a b => decide (b.rating ≤ a.rating))
    (db.ratings.filter (fun r => r.user_id == uid && decide ((4 : ℚ) ≤ r.rating)))).take 10

/-- getRecommendations (movieController.js lines 494-577): fall back to
the global top-rated list when the user has no rating of value at least
4; otherwise take the three most frequent genres among those movies
(falling back again when there are none) and propose unrated movies of
those genres ranked by aggregate rating. -/
def getRecommendations (db : Db) (uid : Nat) (limit? : Option Nat) :
    List AnnotatedMovie :=
  let lim := jsIntOr limit? 10
  let high := highlyRated db uid
  if high.length = 0 then getTopRatedMovies db limit?
  else
    let movieIds := high.map (fun r => r.movie_id)
    let genreCounts :=
      (db.genres.map (fun g =>
        (g.name, (db.movie_genres.filter (fun mg =>
          mg.genre_id == g.genre_id && movieIds.contains mg.movie_id)).length))).filter
        (fun p => decide (1 ≤ p.2))
    let genreNames := ((sortBy (fun a b => decide (b.2 ≤ a.2)) genreCounts).take 3).map
      (fun p => p.1)
    if genreNames.length = 0 then getTopRatedMovies db limit?
    else
      let recs := db.movies.filter (fun m =>
        (db.movie_genres.any (fun mg =>
          mg.movie_id == m.movie_id &&
          db.genres.any (fun g => g.genre_id == mg.genre_id && genreNames.contains g.name))) &&
        !(db.ratings.any (fun r => r.user_id == uid && r.movie_id == m.movie_id)))
      (sortBy ratingDescCmp (recs.map (annotate db))).take lim

/-- The CASE expression of getRatingDistribution (src/unnamed/part_003
lines 482-493): the bucket label of one rating value. -/
def bucketLabel (r : ℚ) : String :=
  if 9 ≤ r then "9-10"
  else if 8 ≤ r then "8-8.9"
  else if 7 ≤ r then "7-7.9"
  else if 6 ≤ r then "6-6.9"
  else if 5 ≤ r then "5-5.9"
  else if 4 ≤ r then "4-4.9"
  else if 3 ≤ r then "3-3.9"
  else if 2 ≤ r then "2-2.9"
  else "0-1.9"

/-- Every label the CASE expression can produce, listed in descending
string order (the ORDER BY rating_range DESC order). -/
def bucketLabelsDesc : List String :=
  ["9-10", "8-8.9", "7-7.9", "6-6.9", "5-5.9", "4-4.9", "3-3.9", "2-2.9", "0-1.9"]

/-- getRatingDistribution (src/unnamed/part_003 lines 479-515):
`GROUP BY rating_range ORDER BY rating_range DESC` emits one
`(label, count)` row per label that occurs in the ratings table, sorted
by label descending; since every label comes from the fixed CASE list,
this equals the descending label list restricted to nonempty groups. -/
def getRatingDistribution (db : Db) : List (String × Nat) :=
  (bucketLabelsDesc.map (fun lab =>
    (lab, (db.ratings.filter (fun r => bucketLabel r.rating == lab)).length))).filter
    (fun p => decide (1 ≤ p.2))

theorem jsOrString_some_of_ne (s d : String) (h : s ≠ "") :
    jsOrString (some s) d = s := by
  simp [jsOrString, h]

theorem jsOrString_none (d : String) : jsOrString none d = d := rfl

theorem jsIntOr_pos (o : Option Nat) (d : Nat) (hd : 1 ≤ d) :
    1 ≤ jsIntOr o d := by
  match o with
  | none => exact hd
  | some n =>
    by_cases h : n = 0
    · simpa [jsIntOr, h] using hd
    · simpa [jsIntOr, h] using Nat.one_le_iff_ne_zero.mpr h

/-- The empty database used by several concrete checks. -/
def emptyDb : Db := ⟨[], [], [], [], [], [], []⟩

/-- Claim C2: a rating value outside `[0, 10]` makes rateMovie answer
400 with the fixed message, and neither the ratings table nor the
user_activity table changes. -/
theorem rateMovie_out_of_range_rejected (db : Db) (uid mid : Nat) (r : ℚ)
    (h : r < 0 ∨ r > 10) :
    (rateMovie db uid mid (some r)).1 = ⟨400, "Rating must be between 0 and 10"⟩ ∧
    (rateMovie db uid mid (some r)).2.ratings = db.ratings ∧
    (rateMovie db uid mid (some r)).2.user_activity = db.user_activity := by
  have hg : ratingOutOfRange (some r) = true := by
    rcases h with h | h <;> simp [ratingOutOfRange, h]
  refine ⟨?_, ?_, ?_⟩ <;> simp [rateMovie, hg]

theorem rateMovie_out_of_range_rejected_check :
    (rateMovie emptyDb 1 1 (some 11)).1 = ⟨400, "Rating must be between 0 and 10"⟩ :=
  (rateMovie_out_of_range_rejected emptyDb 1 1 11 (Or.inr (by norm_num))).1

/-- Claim C3: when a rating row for the pair already exists, a second
valid rateMovie call updates that row in place: the table length is
unchanged, the pair now maps to the new value, the per-pair row counts
are untouched for every pair, and the at-most-one-row-per-pair
invariant is preserved. -/
theorem rateMovie_second_rating_updates (db : Db) (uid mid : Nat) (r : ℚ)
    (mv : MovieRow) (row : RatingRow)
    (hr : 0 ≤ r ∧ r ≤ 10)
    (hm : findMovie db mid = some mv)
    (hx : findRating db uid mid = some row) :
    (rateMovie db uid mid (some r)).2.ratings.length = db.ratings.length ∧
    findRating (rateMovie db uid mid (some r)).2 uid mid = some { row with rating := r } ∧
    (∀ u m : Nat,
      ((rateMovie db uid mid (some r)).2.ratings.filter
        (fun rr => rr.user_id == u && rr.movie_id == m)).length =
      (db.ratings.filter (fun rr => rr.user_id == u && rr.movie_id == m)).length) ∧
    (∀ u m : Nat,
      (db.ratings.filter (fun rr => rr.user_id == u && rr.movie_id == m)).length ≤ 1 →
      ((rateMovie db uid mid (some r)).2.ratings.filter
        (fun rr => rr.user_id == u && rr.movie_id == m)).length ≤ 1) := by
  have hg : ratingOutOfRange (some r) = false := by
    simp only [ratingOutOfRange, Bool.or_eq_false_iff, decide_eq_false_iff_not, not_lt]
    exact ⟨hr.1, hr.2⟩
  have hdb : (rateMovie db uid mid (some r)).2.ratings =
      updateFirst (fun rr => rr.user_id == uid && rr.movie_id == mid)
        (fun rr => { rr with rating := r }) db.ratings := by
    simp [rateMovie, hg, hm, rateWrite, hx]
  refine ⟨?_, ?_, ?_, ?_⟩
  · rw [hdb]; exact length_updateFirst _ _ _
  · show (rateMovie db uid mid (some r)).2.ratings.find? _ = _
    rw [hdb]
    exact find?_updateFirst _ _ _ _ (fun a => rfl) hx
  · intro u m
    rw [hdb]
    exact length_filter_updateFirst _ _ _ _ (fun a => rfl)
  · intro u m hle
    have heq := length_filter_updateFirst
      (fun rr => rr.user_id == uid && rr.movie_id == mid)
      (fun rr => rr.user_id == u && rr.movie_id == m)
      (fun rr => { rr with rating := r }) db.ratings (fun a => rfl)
    rw [hdb, heq]
    exact hle

/-- A database with one movie and one existing rating `(7, 1) = 5`. -/
def exDb3 : Db :=
  ⟨[⟨1, "A", none, "o"⟩], [], [], [⟨7, 1, 5⟩], [], [], []⟩

theorem rateMovie_second_rating_updates_check :
    findRating (rateMovie exDb3 7 1 (some 8)).2 7 1 = some ⟨7, 1, 8⟩ :=
  (rateMovie_second_rating_updates exDb3 7 1 8 ⟨1, "A", none, "o"⟩ ⟨7, 1, 5⟩
    (by norm_num) (by decide) (by decide)).2.1

/-- Claim C4: when the movie exists and the pair already has a review,
createReview answers 400 with the already-reviewed message and returns
the database unchanged, so no review row is inserted. -/
theorem createReview_duplicate_rejected (db : Db) (uid mid : Nat)
    (title content : String) (spoiler? : Option Bool)
    (mv : MovieRow) (rv : ReviewRow)
    (hm : findMovie db mid = some mv)
    (hx : findReview db uid mid = some rv) :
    createReview db uid mid title content spoiler? =
      (⟨400, "You have already reviewed this movie"⟩, db) ∧
    (createReview db uid mid title content spoiler?).2.reviews = db.reviews := by
  have h : createReview db uid mid title content spoiler? =
      (⟨400, "You have already reviewed this movie"⟩, db) := by
    simp [createReview, hm, hx]
  exact ⟨h, by rw [h]⟩

/-- A database with one movie and one existing review by user 7. -/
def exDb4 : Db :=
  ⟨[⟨1, "A", none, "o"⟩], [], [], [], [⟨1, 7, 1, "t", "c", false⟩], [], []⟩

theorem createReview_duplicate_rejected_check :
    createReview exDb4 7 1 "again" "again" none =
      (⟨400, "You have already reviewed this movie"⟩, exDb4) :=
  (createReview_duplicate_rejected exDb4 7 1 "again" "again" none
    ⟨1, "A", none, "o"⟩ ⟨1, 7, 1, "t", "c", false⟩ (by decide) (by decide)).1

/-- Claim C8: deleteAccount keeps the user row (same table length) with
`is_active` set to false, and the auth middleware then rejects the
token of that user with 401 and the deactivation message. -/
theorem deleteAccount_deactivates (db : Db) (uid : Nat) (u : UserRow)
    (hu : findUser db uid = some u) :
    (deleteAccount db uid).2.users.length = db.users.length ∧
    findUser (deleteAccount db uid).2 uid = some { u with is_active := false } ∧
    authCheck (deleteAccount db uid).2 uid =
      .error ⟨401, "Account is deactivated"⟩ := by
  have hdb : (deleteAccount db uid).2.users =
      updateFirst (fun w => w.user_id == uid)
        (fun w => { w with is_active := false }) db.users := by
    simp [deleteAccount, hu]
  have hfind : findUser (deleteAccount db uid).2 uid =
      some { u with is_active := false } := by
    show (deleteAccount db uid).2.users.find? _ = _
    rw [hdb]
    exact find?_updateFirst _ _ _ _ (fun a => rfl) hu
  refine ⟨?_, hfind, ?_⟩
  · rw [hdb]; exact length_updateFirst _ _ _
  · simp [authCheck, hfind]

/-- A database with one active user. -/
def exDb8 : Db :=
  ⟨[], [], [], [], [], [⟨7, "F", "L", "B", true⟩], []⟩

theorem deleteAccount_deactivates_check :
    authCheck (deleteAccount exDb8 7).2 7 = .error ⟨401, "Account is deactivated"⟩ :=
  (deleteAccount_deactivates exDb8 7 ⟨7, "F", "L", "B", true⟩ (by decide)).2.2

/-- Claim C5: a user with no rating of value at least 4 gets exactly the
unscoped top-rated list for the same limit parameter. -/
theorem getRecommendations_fallback (db : Db) (uid : Nat) (limit? : Option Nat)
    (h : ∀ r ∈ db.ratings, ¬(r.user_id = uid ∧ 4 ≤ r.rating)) :
    getRecommendations db uid limit? = getTopRatedMovies db limit? := by
  have hf : db.ratings.filter
      (fun r => r.user_id == uid && decide ((4 : ℚ) ≤ r.rating)) = [] := by
    rw [List.filter_eq_nil_iff]
    intro a ha
    simp only [Bool.and_eq_true, beq_iff_eq, decide_eq_true_eq, not_and]
    intro h1 h2
    exact h a ha ⟨h1, h2⟩
  simp [getRecommendations, highlyRated, hf, sortBy]

/-- A database with one movie and one low rating by user 7. -/
def exDb5 : Db :=
  ⟨[⟨1, "A", none, "o"⟩], [], [], [⟨7, 1, 3⟩], [], [], []⟩

theorem getRecommendations_fallback_check :
    getRecommendations exDb5 7 none = getTopRatedMovies exDb5 none :=
  getRecommendations_fallback exDb5 7 none (by decide)

/-- Claim C10: a rateMovie request without a rating value never trips
the range guard (both JavaScript comparisons against undefined are
false), so the 400 range response is impossible and control reaches the
movie lookup: a missing movie yields 404 and an existing movie reaches
the write path. -/
theorem rateMovie_missing_rating_skips_guard (db : Db) (uid mid : Nat) :
    ratingOutOfRange none = false ∧
    (rateMovie db uid mid none).1 ≠ ⟨400, "Rating must be between 0 and 10"⟩ ∧
    (findMovie db mid = none →
      rateMovie db uid mid none = (⟨404, "Movie not found"⟩, db)) ∧
    (∀ mv, findMovie db mid = some mv →
      rateMovie db uid mid none = rateWrite db uid mid none) := by
  refine ⟨rfl, ?_, ?_, ?_⟩
  · cases hm : findMovie db mid with
    | none => simp [rateMovie, ratingOutOfRange, hm]
    | some mv =>
      cases hr : findRating db uid mid with
      | none => simp [rateMovie, ratingOutOfRange, hm, rateWrite, hr]
      | some rr => simp [rateMovie, ratingOutOfRange, hm, rateWrite, hr]
  · intro hm
    simp [rateMovie, ratingOutOfRange, hm]
  · intro mv hm
    simp [rateMovie, ratingOutOfRange, hm]

theorem rateMovie_missing_rating_skips_guard_check :
    rateMovie emptyDb 1 1 none = (⟨404, "Movie not found"⟩, emptyDb) :=
  (rateMovie_missing_rating_skips_guard emptyDb 1 1).2.2.1 rfl

theorem mem_moviesMinFiltered_annotate {db : Db} {q : MoviesQuery}
    {am : AnnotatedMovie} (h : am ∈ moviesMinFiltered db q) :
    ∃ m : MovieRow, am = annotate db m := by
  have hpage : am ∈ moviesPage db q := by
    unfold moviesMinFiltered at h
    cases hms : q.minRating? with
    | none => rw [hms] at h; exact h
    | some x => rw [hms] at h; exact (List.mem_filter.1 h).1
  unfold moviesPage at hpage
  have h2 := List.take_subset _ _ hpage
  have h3 := List.drop_subset _ _ h2
  have h4 := mem_sortBy.1 h3
  obtain ⟨m, _, rfl⟩ := List.mem_map.1 h4
  exact ⟨m, rfl⟩

/-- Claim C1: every movie returned by getMovies carries an `avgRating`
equal to the arithmetic mean of the rating rows of that movie (0 when
there are none) and a `ratingCount` equal to the number of those rows. -/
theorem getMovies_aggregates (db : Db) (q : MoviesQuery) (am : AnnotatedMovie)
    (hmem : am ∈ (getMovies db q).movies) :
    (ratingsOf db am.movie.movie_id ≠ [] →
      am.avgRating = (ratingsOf db am.movie.movie_id).sum /
        ((ratingsOf db am.movie.movie_id).length : ℚ)) ∧
    (ratingsOf db am.movie.movie_id = [] → am.avgRating = 0) ∧
    am.ratingCount = (ratingsOf db am.movie.movie_id).length := by
  have h : am ∈ moviesMinFiltered db q := hmem
  obtain ⟨m, rfl⟩ := mem_moviesMinFiltered_annotate h
  simp only [annotate]
  refine ⟨?_, ?_, rfl⟩
  · intro hne
    show movieAvgRating db m.movie_id = _
    unfold movieAvgRating listAvg
    rw [if_neg]
    intro hzero
    exact hne (List.length_eq_zero.1 hzero)
  · intro hnil
    show movieAvgRating db m.movie_id = 0
    unfold movieAvgRating listAvg
    rw [hnil]
    rfl

/-- A database with one movie rated twice (values 6 and 7). -/
def exDb1 : Db :=
  ⟨[⟨1, "A", none, "o"⟩], [], [], [⟨7, 1, 6⟩, ⟨8, 1, 7⟩], [], [], []⟩

/-- The getMovies request with every parameter absent. -/
def exQ : MoviesQuery := ⟨none, none, none, none, none, none, none⟩

theorem getMovies_aggregates_check :
    (annotate exDb1 ⟨1, "A", none, "o"⟩).ratingCount =
      (ratingsOf exDb1 (annotate exDb1 ⟨1, "A", none, "o"⟩).movie.movie_id).length :=
  (getMovies_aggregates exDb1 exQ (annotate exDb1 ⟨1, "A", none, "o"⟩)
    (by
      rw [show (getMovies exDb1 exQ).movies =
        [annotate exDb1 ⟨1, "A", none, "o"⟩] from rfl]
      exact List.mem_singleton_self _)).2.2

theorem jsCeilDiv_formula (t l : Nat) (hl : 1 ≤ l) :
    jsCeilDiv t l = (t + l - 1) / l := by
  have hl0 : 0 < l := hl
  have hlq : (0 : ℚ) < (l : ℚ) := by exact_mod_cast hl0
  set q := (t + l - 1) / l with hq
  have key1 : t ≤ q * l := by
    have hmod : l * q + (t + l - 1) % l = t + l - 1 := Nat.div_add_mod _ _
    have hmlt : (t + l - 1) % l < l := Nat.mod_lt _ hl0
    rw [Nat.mul_comm]
    generalize hM : l * q = M at hmod
    omega
  have key2 : 1 ≤ q → (q - 1) * l < t := by
    intro hq1
    have hub : q * l ≤ t + l - 1 := Nat.div_mul_le_self _ _
    have hlb : l ≤ q * l := by
      calc l = 1 * l := (one_mul l).symm
      _ ≤ q * l := Nat.mul_le_mul_right l hq1
    have hsub : (q - 1) * l = q * l - l := by rw [Nat.sub_mul, one_mul]
    rw [hsub]
    generalize hM : q * l = M at hub hlb
    omega
  apply le_antisymm
  · show Nat.ceil ((t : ℚ) / (l : ℚ)) ≤ q
    rw [Nat.ceil_le, div_le_iff₀ hlq]
    exact_mod_cast key1
  · by_cases h0 : q = 0
    · rw [h0]; exact Nat.zero_le _
    · have h1 : 1 ≤ q := Nat.one_le_iff_ne_zero.mpr h0
      have hlt : q - 1 < jsCeilDiv t l := by
        show q - 1 < Nat.ceil ((t : ℚ) / (l : ℚ))
        rw [Nat.lt_ceil, lt_div_iff₀ hlq]
        exact_mod_cast key2 h1
      omega

/-- Claim C7: getMovies returns at most `limit` movies, reports
`pages = ceil(total / limit)`, and, when a minRating filter is present,
reports as `total` the length of the filtered fetched page rather than
a global qualifying count. -/
theorem getMovies_pagination (db : Db) (q : MoviesQuery) :
    (getMovies db q).movies.length ≤ (getMovies db q).limit ∧
    (getMovies db q).pages =
      ((getMovies db q).total + (getMovies db q).limit - 1) / (getMovies db q).limit ∧
    (∀ x : ℚ, q.minRating? = some x →
      (getMovies db q).total = (getMovies db q).movies.length) := by
  refine ⟨?_, ?_, ?_⟩
  · show (moviesMinFiltered db q).length ≤ jsIntOr q.limit? 8
    have hpage : (moviesPage db q).length ≤ jsIntOr q.limit? 8 :=
      List.length_take_le _ _
    unfold moviesMinFiltered
    cases q.minRating? with
    | none => exact hpage
    | some x => exact le_trans (List.length_filter_le _ _) hpage
  · exact jsCeilDiv_formula _ _ (jsIntOr_pos _ _ (by norm_num))
  · intro x hx
    show moviesTotal db q = (moviesMinFiltered db q).length
    simp only [moviesTotal, hx]

/-- The getMovies request that only sets `minRating = 5`. -/
def exQmin : MoviesQuery := ⟨none, none, none, none, none, none, some 5⟩

theorem getMovies_pagination_check :
    (getMovies exDb1 exQmin).total = (getMovies exDb1 exQmin).movies.length :=
  (getMovies_pagination exDb1 exQmin).2.2 5 rfl

/-- A database holding ten ratings with the integer values 0 through 9:
every band of the 0-10 scale is populated. -/
def exDb6 : Db :=
  ⟨[⟨1, "A", none, "o"⟩], [], [],
    [⟨1, 1, 0⟩, ⟨2, 1, 1⟩, ⟨3, 1, 2⟩, ⟨4, 1, 3⟩, ⟨5, 1, 4⟩,
     ⟨6, 1, 5⟩, ⟨7, 1, 6⟩, ⟨8, 1, 7⟩, ⟨9, 1, 8⟩, ⟨10, 1, 9⟩], [], [], []⟩

/-- Counterexample to claim C6: the CASE expression has no separate
band for ratings in `[1, 2)`, so even with all ten integer rating
values 0..9 present the distribution has nine rows, not ten; the
ratings 0 and 1 share the `0-1.9` bucket. -/
theorem ratingDistribution_not_ten_buckets :
    (getRatingDistribution exDb6).length = 9 ∧
    ¬(getRatingDistribution exDb6).length = 10 ∧
    bucketLabel 0 = bucketLabel 1 := by decide

/-- Claim C6 (amended): the rollup buckets every rating into one of
NINE fixed ranges, from `0-1.9` up to `9-10`, and returns the populated
buckets ordered descending by range label (string order, which is
lexicographic on the character lists). -/
theorem ratingDistribution_nine_buckets (db : Db) :
    bucketLabelsDesc.length = 9 ∧
    (∀ r : ℚ, bucketLabel r ∈ bucketLabelsDesc) ∧
    (∀ p ∈ getRatingDistribution db, p.1 ∈ bucketLabelsDesc) ∧
    List.Pairwise (fun p q => q.1.data < p.1.data) (getRatingDistribution db) := by
  refine ⟨rfl, ?_, ?_, ?_⟩
  · intro r
    unfold bucketLabel bucketLabelsDesc
    split_ifs <;> simp
  · intro p hp
    unfold getRatingDistribution at hp
    obtain ⟨lab, hlab, rfl⟩ := List.mem_map.1 (List.mem_filter.1 hp).1
    exact hlab
  · have hbase : List.Pairwise (fun a b : String => b.data < a.data)
        bucketLabelsDesc := by decide
    exact List.Pairwise.filter _ (List.pairwise_map.mpr hbase)

theorem ratingDistribution_nine_buckets_check :
    "9-10" ∈ bucketLabelsDesc :=
  (ratingDistribution_nine_buckets exDb6).2.2.1 ("9-10", 1) (by decide)

/-- Counterexample to claim C9: a title supplied as the empty string is
a supplied field, but `title: title || review.title` keeps the old
title, so the supplied field does not overwrite the stored row. -/
def exDb9 : Db :=
  ⟨[⟨1, "M", none, "o"⟩], [], [], [],
    [⟨1, 7, 1, "Old", "body", false⟩], [⟨7, "F", "L", "B", true⟩], []⟩

theorem updateReview_empty_title_kept :
    ((updateReview exDb9 7 1 (some "") none none).2.reviews.map
      (fun r => r.title)) = ["Old"] ∧
    ¬(((updateReview exDb9 7 1 (some "") none none).2.reviews.map
      (fun r => r.title)) = [""]) := by decide

/-- Claim C9 (amended): in updateReview and updateProfile a field
supplied with a truthy (nonempty) string overwrites the stored value
and an absent field keeps the stored value; the spoiler flag overwrites
exactly when supplied.  (A field supplied as the empty string is kept,
see the counterexample.) -/
theorem applyUpdate_field_semantics (rv : ReviewRow)
    (t? c? : Option String) (s? : Option Bool)
    (u : UserRow) (fn? ln? bio? : Option String) :
    ((∀ t, t? = some t → t ≠ "" → (applyReviewUpdate rv t? c? s?).title = t) ∧
     (t? = none → (applyReviewUpdate rv t? c? s?).title = rv.title) ∧
     (∀ c, c? = some c → c ≠ "" → (applyReviewUpdate rv t? c? s?).content = c) ∧
     (c? = none → (applyReviewUpdate rv t? c? s?).content = rv.content) ∧
     (∀ s, s? = some s → (applyReviewUpdate rv t? c? s?).is_spoiler = s) ∧
     (s? = none → (applyReviewUpdate rv t? c? s?).is_spoiler = rv.is_spoiler)) ∧
    ((∀ v, fn? = some v → v ≠ "" →
        (applyProfileUpdate u fn? ln? bio?).first_name = v) ∧
     (fn? = none → (applyProfileUpdate u fn? ln? bio?).first_name = u.first_name) ∧
     (∀ v, ln? = some v → v ≠ "" →
        (applyProfileUpdate u fn? ln? bio?).last_name = v) ∧
     (ln? = none → (applyProfileUpdate u fn? ln? bio?).last_name = u.last_name) ∧
     (∀ v, bio? = some v → v ≠ "" →
        (applyProfileUpdate u fn? ln? bio?).bio = v) ∧
     (bio? = none → (applyProfileUpdate u fn? ln? bio?).bio = u.bio)) := by
  refine ⟨⟨?_, ?_, ?_, ?_, ?_, ?_⟩, ?_, ?_, ?_, ?_, ?_, ?_⟩
  · intro t ht hne
    subst ht
    simp [applyReviewUpdate, jsOrString_some_of_ne _ _ hne]
  · intro ht
    subst ht
    simp [applyReviewUpdate, jsOrString_none]
  · intro c hc hne
    subst hc
    simp [applyReviewUpdate, jsOrString_some_of_ne _ _ hne]
  · intro hc
    subst hc
    simp [applyReviewUpdate, jsOrString_none]
  · intro s hs
    subst hs
    simp [applyReviewUpdate]
  · intro hs
    subst hs
    simp [applyReviewUpdate]
  · intro v hv hne
    subst hv
    simp [applyProfileUpdate, jsOrString_some_of_ne _ _ hne]
  · intro hv
    subst hv
    simp [applyProfileUpdate, jsOrString_none]
  · intro v hv hne
    subst hv
    simp [applyProfileUpdate, jsOrString_some_of_ne _ _ hne]
  · intro hv
    subst hv
    simp [applyProfileUpdate, jsOrString_none]
  · intro v hv hne
    subst hv
    simp [applyProfileUpdate, jsOrString_some_of_ne _ _ hne]
  · intro hv
    subst hv
    simp [applyProfileUpdate, jsOrString_none]

theorem applyUpdate_field_semantics_check :
    (applyReviewUpdate ⟨1, 7, 1, "Old", "body", false⟩ (some "New") none none).title
      = "New" :=
  ((applyUpdate_field_semantics ⟨1, 7, 1, "Old", "body", false⟩ (some "New") none none
    ⟨7, "F", "L", "B", true⟩ none none none).1.1) "New" rfl (by decide)
